import Mathlib

/-!
Shallow embedding of the Wikimedia MCP server's tool dispatcher
(src/src/wikimedia/server.py, `handle_call_tool`) together with proofs
about its argument validation, response transformation and error
normalization behavior.

The dispatcher is modelled as a total function from (tool name, optional
argument bag, current date, upstream world) to a dispatch result holding
the produced content blocks and the list of upstream HTTP requests that
the call issued.  Python exceptions are modelled with `Except PyErr`;
the `try/except` ladder at the dispatch boundary (lines 552-572 of the
source) becomes the total normalization function `normalizeResult`.
-/

deriving instance DecidableEq for Except

/-- Lexicographic comparison of character lists by code point, the order
Python uses to compare strings (`a ≤ b`). -/
def charListLeB : List Char → List Char → Bool
  | [], _ => true
  | _ :: _, [] => false
  | a :: as, b :: bs =>
    if a < b then true
    else if b < a then false
    else charListLeB as bs

/-- Python string comparison `a <= b`. -/
def pyStrLeB (a b : String) : Bool :=
  charListLeB a.data b.data

/-- Python exceptions that can travel through the dispatcher, keyed by the
`except` clauses at the dispatch boundary: `aiohttp.ClientError`,
`ValueError`, and everything else.  The payload is `str(e)`. -/
inductive PyErr where
  | clientError (msg : String)
  | valueError (msg : String)
  | other (msg : String)
deriving DecidableEq

/-- `str(e)` of a Python exception: each modelled exception carries its
message directly. -/
def pyStrErr : PyErr → String
  | .clientError m => m
  | .valueError m => m
  | .other m => m

/-- A content block.  The server only ever constructs
`types.TextContent(type="text", text=...)`, so only the text variant is
modelled. -/
inductive Content where
  | text (s : String)
deriving DecidableEq

/-- One upstream HTTP GET: the url passed to `session.get` plus the
`params` mapping when one is supplied (the two site-query tools). -/
structure UpstreamRequest where
  url : String
  params : List (String × String)
deriving DecidableEq

/-- Result of one dispatcher invocation: the content blocks returned to the
host transport and the upstream requests issued while producing them. -/
structure DispatchResult where
  content : List Content
  requests : List UpstreamRequest
deriving DecidableEq

/-- The loosely-typed argument bag of a tool call: every key the six tools
ever read, each optional because the caller may omit it. -/
structure Args where
  query : Option String := none
  limit : Option Int := none
  project : Option String := none
  language : Option String := none
  title : Option String := none
  date : Option String := none
  eventType : Option String := none
deriving DecidableEq

/-- The live clock, reduced to the two `strftime` renderings the server
takes from `datetime.datetime.now()`: `"%Y/%m/%d"` and `"%m/%d"`. -/
structure Today where
  ymd : String
  md : String
deriving DecidableEq

/-- `f"{x}"` for a value that may be Python `None` (e.g. a missing
`query` or `title` argument interpolated into a URL or message). -/
def pyStrOpt : Option String → String
  | some s => s
  | none => "None"

/-- Python `str.split(sep)` for a one-character separator, on character
lists.  `splitChar sep [] = [[]]`, matching `"".split(sep) == [""]`. -/
def splitChar (sep : Char) : List Char → List (List Char)
  | [] => [[]]
  | c :: rest =>
    let r := splitChar sep rest
    if c = sep then [] :: r
    else
      match r with
      | h :: t => (c :: h) :: t
      | [] => [[c]]

/-- The tuple unpacking `month, day = date.split("/")`: succeeds exactly
when the split yields two parts, otherwise raises the `ValueError` caught
by the date-format handler. -/
def pySplitUnpack2 (s : String) : Except Unit (String × String) :=
  match (splitChar '/' s.data).map String.mk with
  | [a, b] => .ok (a, b)
  | _ => .error ()

/-- Python `str.zfill(w)`: left-pad with zeros up to width `w`, keeping a
leading sign in front of the padding. -/
def pyZfill (s : String) (w : Nat) : String :=
  if w ≤ s.length then s
  else
    match s.data with
    | [] => String.mk (List.replicate w '0')
    | c :: rest =>
      if c = '+' ∨ c = '-' then String.mk (c :: (List.replicate (w - s.length) '0' ++ rest))
      else String.mk (List.replicate (w - s.length) '0' ++ s.data)

/-- Value of a nonempty all-digit character list, `none` otherwise. -/
def decDigits? (l : List Char) : Option Nat :=
  match l with
  | [] => none
  | _ =>
    l.foldl
      (fun acc c =>
        match acc with
        | some n => if c.isDigit then some (10 * n + (c.toNat - 48)) else none
        | none => none)
      (some 0)

/-- Python `int(s)` on a string: an optional sign followed by decimal
digits (the whitespace and underscore forms are not modelled); on failure
it raises `ValueError("invalid literal for int() with base 10: ...")`. -/
def pyInt (s : String) : Except PyErr Int :=
  let fail : Except PyErr Int :=
    .error (.valueError ("invalid literal for int() with base 10: '" ++ s ++ "'"))
  match s.data with
  | '+' :: rest =>
    match decDigits? rest with
    | some n => .ok (Int.ofNat n)
    | none => fail
  | '-' :: rest =>
    match decDigits? rest with
    | some n => .ok (-(Int.ofNat n))
    | none => fail
  | l =>
    match decDigits? l with
    | some n => .ok (Int.ofNat n)
    | none => fail

/-- `f"{x}"` for `event.get('year', '')`: an integer renders as its
decimal form, the default renders as the empty string. -/
def pyShowOptInt : Option Int → String
  | some n => toString n
  | none => ""

/-- Python `str.replace(pat, rep)` on character lists: left-to-right,
non-overlapping replacement of every occurrence (for nonempty `pat`). -/
def pyReplace (s pat rep : List Char) : List Char :=
  match s with
  | [] => []
  | c :: rest =>
    if h : pat ≠ [] ∧ pat.isPrefixOf (c :: rest) then
      rep ++ pyReplace ((c :: rest).drop pat.length) pat rep
    else
      c :: pyReplace rest pat rep
termination_by s.length
decreasing_by
  · simp only [List.length_drop, List.length_cons]
    have hp : 0 < pat.length := List.length_pos.mpr h.1
    omega
  · simp only [List.length_cons]
    omega

/-- The upstream highlight markup rewritten by `search_content`. -/
def spanOpen : String := "<span class=\"searchmatch\">"

/-- The closing tag rewritten by `search_content`. -/
def spanClose : String := "</span>"

/-- `excerpt.replace('<span class="searchmatch">', '**').replace('</span>', '**')`
from the `search_content` transformer. -/
def transformExcerpt (s : String) : String :=
  String.mk (pyReplace (pyReplace s.data spanOpen.data "**".data) spanClose.data "**".data)

/-- One entry of the REST search response's `pages` array.  `title` is
accessed unconditionally (`page["title"]`); the other two via `.get`. -/
structure SearchPage where
  title : String
  description : Option String := none
  excerpt : Option String := none
deriving DecidableEq

/-- Body of a `/core/v1/.../search/page|title` response. -/
structure SearchBody where
  pages : Option (List SearchPage) := none
deriving DecidableEq

/-- One revision of a page, with `revision["slots"]["main"]["*"]` and
`revision["timestamp"]` flattened into the two fields actually read. -/
structure Revision where
  content : String
  timestamp : String
deriving DecidableEq

/-- One value of the site-query `pages` mapping for `get_page`.
`missing` models the `"missing" in page` key-presence test; `revisions`
is `none` when the `revisions` key is absent (a `KeyError`). -/
structure PageObj where
  title : String
  missing : Bool := false
  revisions : Option (List Revision) := none
deriving DecidableEq

/-- One entry of the `redirects` array; only its `to` field (here named
`toTitle`) is read. -/
structure RedirectEntry where
  toTitle : String
deriving DecidableEq

/-- The `query` object of a `get_page` site-query response.  `pages`
models `data["query"]["pages"]` as its list of values in insertion
order; `redirects` is present only when upstream reports redirects. -/
structure PageQueryObj where
  pages : Option (List PageObj) := none
  redirects : Option (List RedirectEntry) := none
deriving DecidableEq

/-- Body of a `get_page` site-query response. -/
structure PageQueryBody where
  query : Option PageQueryObj := none
deriving DecidableEq

/-- One language link: `x["lang"]` and `x["*"]`. -/
structure LangLink where
  lang : String
  star : String
deriving DecidableEq

/-- One value of the site-query `pages` mapping for `get_languages`. -/
structure LangPage where
  missing : Bool := false
  langlinks : Option (List LangLink) := none
deriving DecidableEq

/-- The `query` object of a `get_languages` site-query response. -/
structure LangQueryObj where
  pages : Option (List LangPage) := none
deriving DecidableEq

/-- Body of a `get_languages` site-query response. -/
structure LangQueryBody where
  query : Option LangQueryObj := none
deriving DecidableEq

/-- `data["tfa"]` of the featured feed: title and extract via `.get`. -/
structure FeaturedTfa where
  title : Option String := none
  extract : Option String := none
deriving DecidableEq

/-- One entry of `mostread.articles`. -/
structure FeaturedArticle where
  title : Option String := none
  extract : Option String := none
deriving DecidableEq

/-- `data["mostread"]` of the featured feed. -/
structure FeaturedMostread where
  articles : Option (List FeaturedArticle) := none
deriving DecidableEq

/-- `image.get('description', {})` of the featured feed. -/
structure FeaturedImageDesc where
  text : Option String := none
deriving DecidableEq

/-- `data["image"]` of the featured feed. -/
structure FeaturedImage where
  title : Option String := none
  description : Option FeaturedImageDesc := none
deriving DecidableEq

/-- Body of a `/feed/v1/.../featured/...` response. -/
structure FeaturedBody where
  tfa : Option FeaturedTfa := none
  mostread : Option FeaturedMostread := none
  image : Option FeaturedImage := none
deriving DecidableEq

/-- One event of the on-this-day feed: `event.get('year', '')` and
`event.get('text', '')`. -/
structure OtdEvent where
  year : Option Int := none
  text : Option String := none
deriving DecidableEq

/-- Body of a `/feed/v1/.../onthisday/...` response: each key present
only when upstream supplies it. -/
structure OnThisDayBody where
  selected : Option (List OtdEvent) := none
  births : Option (List OtdEvent) := none
  deaths : Option (List OtdEvent) := none
  holidays : Option (List OtdEvent) := none
deriving DecidableEq

/-- The upstream world a call runs against: for each of the six request
shapes, either the parsed JSON body or the Python exception that the
request / `raise_for_status` / `json()` step raised. -/
structure Upstream where
  searchPage : Except PyErr SearchBody := .error (.clientError "stub")
  searchTitle : Except PyErr SearchBody := .error (.clientError "stub")
  pageQuery : Except PyErr PageQueryBody := .error (.clientError "stub")
  langQuery : Except PyErr LangQueryBody := .error (.clientError "stub")
  featured : Except PyErr FeaturedBody := .error (.clientError "stub")
  onthisday : Except PyErr OnThisDayBody := .error (.clientError "stub")

/-- The closed language set shared by `get_featured` and
`get_on_this_day` (source order of the set literal). -/
def supportedLanguages : List String := ["en", "de", "fr", "es", "ru", "ja", "zh"]

/-- The closed event-type set of `get_on_this_day`. -/
def validEventTypes : List String := ["all", "selected", "births", "deaths", "holidays", "events"]

/-- Python `sorted(...)` on strings (a stable sort; used for the
supported-set listings in error messages). -/
def sortedStrings (l : List String) : List String :=
  List.insertionSort (fun a b => pyStrLeB a b = true) l

/-- The fixed `days_in_month` table of `get_on_this_day` (February is
hard-coded to 29).  The dictionary lookup is guarded by the month-range
check, so keys outside 1..12 are never consulted. -/
def daysInMonth (m : Int) : Int :=
  if m = 1 then 31 else if m = 2 then 29 else if m = 3 then 31 else if m = 4 then 30
  else if m = 5 then 31 else if m = 6 then 30 else if m = 7 then 31 else if m = 8 then 31
  else if m = 9 then 30 else if m = 10 then 31 else if m = 11 then 30 else if m = 12 then 31
  else 0

/-- Leap-year test of the proleptic Gregorian calendar, used by the
`strptime` model below. -/
def isLeapYear (y : Nat) : Bool :=
  y % 4 = 0 && (y % 100 ≠ 0 || y % 400 = 0)

/-- Real calendar month lengths (only the `strptime` model uses this;
`get_on_this_day` uses the fixed table above instead). -/
def realDaysInMonth (y m : Nat) : Nat :=
  if m = 2 then (if isLeapYear y then 29 else 28)
  else if m = 4 ∨ m = 6 ∨ m = 9 ∨ m = 11 then 30
  else 31

/-- Python `datetime.strptime(s, "%Y/%m/%d")` succeeding: three
slash-separated decimal fields of bounded width forming a real calendar
date. -/
def strptimeYmdOk (s : String) : Bool :=
  match (splitChar '/' s.data).map String.mk with
  | [y, m, d] =>
    match decDigits? y.data, decDigits? m.data, decDigits? d.data with
    | some yi, some mi, some di =>
      decide (y.length ≤ 4 ∧ m.length ≤ 2 ∧ d.length ≤ 2 ∧
        1 ≤ mi ∧ mi ≤ 12 ∧ 1 ≤ di ∧ di ≤ realDaysInMonth yi mi)
    | _, _, _ => false
  | _ => false

/-- The `search_content` branch (source lines 109-136). -/
def run_search_content (args : Args) (u : Upstream) :
    Except PyErr Content × List UpstreamRequest :=
  let query := args.query
  let limit := args.limit.getD 10
  let project := args.project.getD "wikipedia"
  let language := args.language.getD "en"
  let api_url := "https://api.wikimedia.org/core/v1/" ++ project ++ "/" ++ language ++
    "/search/page?q=" ++ pyStrOpt query ++ "&limit=" ++ toString limit
  let req : UpstreamRequest := ⟨api_url, []⟩
  match u.searchPage with
  | .error e => (.error e, [req])
  | .ok data =>
    let results := (data.pages.getD []).map fun page =>
      let description := page.description.getD ""
      let excerpt := transformExcerpt (page.excerpt.getD "")
      "# " ++ page.title ++ "\n\n" ++ description ++ "\n\n" ++ excerpt
    (.ok (.text (String.intercalate "\n\n---\n\n" results)), [req])

/-- The `search_titles` branch (source lines 213-237). -/
def run_search_titles (args : Args) (u : Upstream) :
    Except PyErr Content × List UpstreamRequest :=
  let query := args.query
  let limit := args.limit.getD 10
  let project := args.project.getD "wikipedia"
  let language := args.language.getD "en"
  let api_url := "https://api.wikimedia.org/core/v1/" ++ project ++ "/" ++ language ++
    "/search/title?q=" ++ pyStrOpt query ++ "&limit=" ++ toString limit
  let req : UpstreamRequest := ⟨api_url, []⟩
  match u.searchTitle with
  | .error e => (.error e, [req])
  | .ok data =>
    let results := (data.pages.getD []).map fun page =>
      "# " ++ page.title ++ "\n" ++ page.description.getD ""
    (.ok (.text (String.intercalate "\n\n---\n\n" results)), [req])

/-- The `get_page` branch (source lines 138-211); its inner
`try/except Exception` makes the branch total, rendering every raised
exception as an "Error retrieving page" text. -/
def run_get_page (args : Args) (u : Upstream) : Content × List UpstreamRequest :=
  let title := args.title
  let project := args.project.getD "wikipedia"
  let language := args.language.getD "en"
  let api_url := "https://" ++ language ++ "." ++ project ++ ".org/w/api.php"
  let params := [("action", "query"), ("titles", pyStrOpt title), ("prop", "revisions|info"),
    ("rvprop", "content|timestamp"), ("rvslots", "main"), ("format", "json"),
    ("redirects", "1"), ("inprop", "url")]
  let req : UpstreamRequest := ⟨api_url, params⟩
  let notFound : Content := .text ("Page '" ++ pyStrOpt title ++ "' not found")
  match u.pageQuery with
  | .error e => (.text ("Error retrieving page: " ++ pyStrErr e), [req])
  | .ok data =>
    match data.query with
    | none => (notFound, [req])
    | some qo =>
      match qo.pages.getD [] with
      | [] => (notFound, [req])
      | page :: _ =>
        if page.missing then (notFound, [req])
        else
          match page.revisions with
          | none => (.text "Error retrieving page: 'revisions'", [req])
          | some [] => (.text "Error retrieving page: list index out of range", [req])
          | some (revision :: _) =>
            match qo.redirects with
            | none =>
              (.text ("# " ++ page.title ++ "\n\n" ++ revision.content ++
                "\n\nLast modified: " ++ revision.timestamp), [req])
            | some rl =>
              match rl.getLast? with
              | none => (.text "Error retrieving page: list index out of range", [req])
              | some r =>
                (.text ("# " ++ r.toTitle ++ "\n\n" ++ revision.content ++
                  "\n\nLast modified: " ++ revision.timestamp), [req])

/-- `"- [{code}] {title}"` for one language link. -/
def fmtLangLink (l : LangLink) : String :=
  "- [" ++ l.lang ++ "] " ++ l.star

/-- The comparison `key=lambda x: x["lang"]` induces on language links. -/
def linkLE (x y : LangLink) : Prop :=
  pyStrLeB x.lang y.lang = true

instance : DecidableRel linkLE :=
  fun x y => instDecidableEqBool (pyStrLeB x.lang y.lang) true

/-- `sorted(page["langlinks"], key=lambda x: x["lang"])`: a stable sort
by language code. -/
def sortLinks (links : List LangLink) : List LangLink :=
  List.insertionSort linkLE links

/-- The `get_languages` branch (source lines 239-318); total thanks to
its inner `try/except Exception`. -/
def run_get_languages (args : Args) (u : Upstream) : Content × List UpstreamRequest :=
  let title := args.title
  let project := args.project.getD "wikipedia"
  let language := args.language.getD "en"
  let api_url := "https://" ++ language ++ "." ++ project ++ ".org/w/api.php"
  let params := [("action", "query"), ("titles", pyStrOpt title), ("prop", "langlinks"),
    ("lllimit", "500"), ("format", "json"), ("redirects", "1")]
  let req : UpstreamRequest := ⟨api_url, params⟩
  let notFound : Content := .text ("Page '" ++ pyStrOpt title ++ "' not found")
  let noLinks : Content := .text ("No language links found for '" ++ pyStrOpt title ++ "'")
  match u.langQuery with
  | .error e => (.text ("Error retrieving language links: " ++ pyStrErr e), [req])
  | .ok data =>
    match data.query with
    | none => (notFound, [req])
    | some qo =>
      match qo.pages.getD [] with
      | [] => (notFound, [req])
      | page :: _ =>
        if page.missing then (notFound, [req])
        else
          match page.langlinks with
          | none => (noLinks, [req])
          | some links =>
            let results := (sortLinks links).map fmtLangLink
            if results = [] then (noLinks, [req])
            else
              (.text ("Found " ++ toString results.length ++ " language versions:\n\n" ++
                String.intercalate "\n" results), [req])

/-- The `get_featured` branch (source lines 320-406); total thanks to
its inner `try/except Exception`. -/
def run_get_featured (args : Args) (today : Today) (u : Upstream) :
    Content × List UpstreamRequest :=
  let project := args.project.getD "wikipedia"
  let language := args.language.getD "en"
  if project = "wikipedia" then
    if language ∈ supportedLanguages then
      let dateE : Except Content String :=
        match args.date with
        | some d =>
          if d = "" then .ok today.ymd
          else if strptimeYmdOk d then .ok d
          else .error (.text ("Invalid date format: " ++ d ++
            ". Please use YYYY/MM/DD format (e.g., 2025/01/02)"))
        | none => .ok today.ymd
      match dateE with
      | .error c => (c, [])
      | .ok date =>
        let api_url := "https://api.wikimedia.org/feed/v1/" ++ project ++ "/" ++ language ++
          "/featured/" ++ date
        let req : UpstreamRequest := ⟨api_url, []⟩
        match u.featured with
        | .error e => (.text ("Error retrieving featured content: " ++ pyStrErr e), [req])
        | .ok data =>
          let tfaSec : List String :=
            match data.tfa with
            | some tfa =>
              ["# Today's Featured Article\n\n## " ++ tfa.title.getD "" ++ "\n\n" ++
                tfa.extract.getD ""]
            | none => []
          let mostreadSec : List String :=
            match data.mostread with
            | some mostread =>
              let articles := (mostread.articles.getD []).take 5
              if articles = [] then []
              else
                ["# Most Read Articles\n\n" ++ String.intercalate "\n\n"
                  (articles.map fun article =>
                    "## " ++ article.title.getD "" ++ "\n" ++ article.extract.getD "")]
            | none => []
          let imageSec : List String :=
            match data.image with
            | some image =>
              let descText :=
                match image.description with
                | some dsc => dsc.text.getD ""
                | none => ""
              ["# Picture of the Day\n\n## " ++ image.title.getD "" ++ "\n\n" ++ descText]
            | none => []
          let sections := tfaSec ++ mostreadSec ++ imageSec
          if sections = [] then (.text ("No featured content found for date: " ++ date), [req])
          else (.text (String.intercalate "\n\n---\n\n" sections), [req])
    else
      (.text ("Featured content is not available for language '" ++ language ++
        "'. Supported languages are: " ++
        String.intercalate ", " (sortedStrings supportedLanguages)), [])
  else
    (.text ("Featured content is only available for Wikipedia, not " ++ project), [])

/-- The `get_on_this_day` branch (source lines 408-548); total thanks to
its tool-level `try/except Exception`, which in particular catches the
`ValueError` raised by `int(...)` on non-numeric date parts. -/
def run_get_on_this_day (args : Args) (today : Today) (u : Upstream) :
    Content × List UpstreamRequest :=
  let type_ := args.eventType.getD "all"
  let project := args.project.getD "wikipedia"
  let language := args.language.getD "en"
  if type_ ∈ validEventTypes then
    if project = "wikipedia" then
      if language ∈ supportedLanguages then
        let date :=
          match args.date with
          | some d => if d = "" then today.md else d
          | none => today.md
        match pySplitUnpack2 date with
        | .error _ =>
          (.text ("Invalid date format: " ++ date ++ ". Please use MM/DD format (e.g., 01/28)"), [])
        | .ok (m0, d0) =>
          let month := pyZfill m0 2
          let day := pyZfill d0 2
          match pyInt month with
          | .error e => (.text ("Error retrieving historical events: " ++ pyStrErr e), [])
          | .ok month_int =>
            match pyInt day with
            | .error e => (.text ("Error retrieving historical events: " ++ pyStrErr e), [])
            | .ok day_int =>
              if 1 ≤ month_int ∧ month_int ≤ 12 then
                if 1 ≤ day_int ∧ day_int ≤ daysInMonth month_int then
                  let endpoint := if type_ = "all" then "all" else type_
                  let api_url := "https://api.wikimedia.org/feed/v1/" ++ project ++ "/" ++
                    language ++ "/onthisday/" ++ endpoint ++ "/" ++ month ++ "/" ++ day
                  let req : UpstreamRequest := ⟨api_url, []⟩
                  match u.onthisday with
                  | .error e =>
                    (.text ("Error retrieving historical events: " ++ pyStrErr e), [req])
                  | .ok data =>
                    let selectedSec : List String :=
                      if type_ = "all" ∨ type_ = "selected" then
                        match data.selected with
                        | some evs =>
                          ["# Selected Events\n\n" ++ String.intercalate "\n\n"
                            ((evs.take 10).map fun event =>
                              "## " ++ pyShowOptInt event.year ++ "\n" ++ event.text.getD "")]
                        | none => []
                      else []
                    let birthsSec : List String :=
                      if type_ = "all" ∨ type_ = "births" then
                        match data.births with
                        | some evs =>
                          ["# Births\n\n" ++ String.intercalate "\n\n"
                            ((evs.take 5).map fun birth =>
                              "## " ++ pyShowOptInt birth.year ++ " - " ++ birth.text.getD "")]
                        | none => []
                      else []
                    let deathsSec : List String :=
                      if type_ = "all" ∨ type_ = "deaths" then
                        match data.deaths with
                        | some evs =>
                          ["# Deaths\n\n" ++ String.intercalate "\n\n"
                            ((evs.take 5).map fun death =>
                              "## " ++ pyShowOptInt death.year ++ " - " ++ death.text.getD "")]
                        | none => []
                      else []
                    let holidaysSec : List String :=
                      if type_ = "all" ∨ type_ = "holidays" then
                        match data.holidays with
                        | some evs =>
                          ["# Holidays and Observances\n\n" ++ String.intercalate "\n\n"
                            (evs.map fun holiday => "- " ++ holiday.text.getD "")]
                        | none => []
                      else []
                    let sections := selectedSec ++ birthsSec ++ deathsSec ++ holidaysSec
                    if sections = [] then
                      (.text ("No " ++ type_ ++ " events found for date: " ++ month ++ "/" ++ day),
                        [req])
                    else (.text (String.intercalate "\n\n---\n\n" sections), [req])
                else
                  (.text ("Invalid day: " ++ day ++ ". Month " ++ month ++ " has " ++
                    toString (daysInMonth month_int) ++ " days"), [])
              else
                (.text ("Invalid month: " ++ month ++ ". Must be between 01 and 12"), [])
      else
        (.text ("On this day events are not available for language '" ++ language ++
          "'. Supported languages are: " ++
          String.intercalate ", " (sortedStrings supportedLanguages)), [])
    else
      (.text ("On this day events are only available for Wikipedia, not " ++ project), [])
  else
    (.text ("Invalid event type: '" ++ type_ ++ "'. Supported types are: " ++
      String.intercalate ", " (sortedStrings validEventTypes)), [])

/-- The tool-name routing of `handle_call_tool`, ending in the
`raise ValueError(f"Unknown tool: {name}")` for unknown names; branches
whose inner handler already made them total are wrapped in `.ok`. -/
def coreDispatch (name : String) (args : Args) (today : Today) (u : Upstream) :
    Except PyErr Content × List UpstreamRequest :=
  if name = "search_content" then run_search_content args u
  else if name = "get_page" then
    let r := run_get_page args u
    (.ok r.1, r.2)
  else if name = "search_titles" then run_search_titles args u
  else if name = "get_languages" then
    let r := run_get_languages args u
    (.ok r.1, r.2)
  else if name = "get_featured" then
    let r := run_get_featured args today u
    (.ok r.1, r.2)
  else if name = "get_on_this_day" then
    let r := run_get_on_this_day args today u
    (.ok r.1, r.2)
  else (.error (.valueError ("Unknown tool: " ++ name)), [])

/-- The `except` ladder at the dispatch boundary (source lines 552-572):
every escaping exception becomes one text block. -/
def normalizeResult : Except PyErr Content → Content
  | .ok c => c
  | .error (.clientError m) => .text ("Error accessing Wikipedia API: " ++ m)
  | .error (.valueError m) => .text ("Error: " ++ m)
  | .error (.other m) => .text ("Unexpected error: " ++ m)

/-- The dispatcher entry point `handle_call_tool(name, arguments)`: an
absent argument mapping is replaced by the empty one, the tool branch
runs, and any escaping exception is normalized to a single text block. -/
def handle_call_tool (name : String) (arguments : Option Args) (today : Today)
    (u : Upstream) : DispatchResult :=
  let args := arguments.getD {}
  let r := coreDispatch name args today u
  { content := [normalizeResult r.1], requests := r.2 }

/-- The six advertised tool names. -/
def toolNames : List String :=
  ["search_content", "get_page", "search_titles", "get_languages", "get_featured",
    "get_on_this_day"]

/-- A concrete clock value used to instantiate theorems. -/
def sampleToday : Today := ⟨"2025/06/15", "06/15"⟩

/-- A second, different clock value, for determinism statements. -/
def sampleToday2 : Today := ⟨"1999/12/31", "12/31"⟩

/-- A concrete upstream world in which every request fails with a stub
transport error. -/
def sampleUpstream : Upstream := {}

/-- An upstream world whose `get_languages` site query succeeds with a
single page carrying the given language links. -/
def langUpstream (links : List LangLink) : Upstream :=
  { langQuery := .ok ⟨some ⟨some [⟨false, some links⟩]⟩⟩ }

/-! ### Order facts about the Python string comparison -/

lemma charListLeB_total (a : List Char) :
    ∀ b, charListLeB a b = true ∨ charListLeB b a = true := by
  induction a with
  | nil => intro b; left; rfl
  | cons x xs ih =>
    intro b
    cases b with
    | nil => right; rfl
    | cons y ys =>
      by_cases h1 : x < y
      · left; simp [charListLeB, h1]
      · by_cases h2 : y < x
        · right; simp [charListLeB, h2]
        · have hxy : x = y := le_antisymm (not_lt.mp h2) (not_lt.mp h1)
          subst hxy
          rcases ih ys with h | h
          · left; simp [charListLeB, h1, h]
          · right; simp [charListLeB, h1, h]

lemma charListLeB_trans : ∀ {a b c : List Char}, charListLeB a b = true →
    charListLeB b c = true → charListLeB a c = true := by
  intro a
  induction a with
  | nil => intro b c _ _; rfl
  | cons x xs ih =>
    intro b c hab hbc
    cases b with
    | nil => simp [charListLeB] at hab
    | cons y ys =>
      cases c with
      | nil => simp [charListLeB] at hbc
      | cons z zs =>
        by_cases hxy : x < y
        · by_cases hyz : y < z
          · simp [charListLeB, lt_trans hxy hyz]
          · by_cases hzy : z < y
            · simp [charListLeB, hyz, hzy] at hbc
            · have h : y = z := le_antisymm (not_lt.mp hzy) (not_lt.mp hyz)
              subst h
              simp [charListLeB, hxy]
        · by_cases hyx : y < x
          · simp [charListLeB, hxy, hyx] at hab
          · have h : x = y := le_antisymm (not_lt.mp hyx) (not_lt.mp hxy)
            subst h
            simp only [charListLeB, lt_irrefl, if_neg (lt_irrefl x), if_false] at hab
            by_cases hxz : x < z
            · simp [charListLeB, hxz]
            · by_cases hzx : z < x
              · simp [charListLeB, hxz, hzx] at hbc
              · have h : x = z := le_antisymm (not_lt.mp hzx) (not_lt.mp hxz)
                subst h
                simp only [charListLeB, lt_irrefl, if_neg (lt_irrefl x), if_false] at hbc ⊢
                exact ih hab hbc

lemma charListLeB_antisymm : ∀ {a b : List Char}, charListLeB a b = true →
    charListLeB b a = true → a = b := by
  intro a
  induction a with
  | nil =>
    intro b _ hba
    cases b with
    | nil => rfl
    | cons y ys => simp [charListLeB] at hba
  | cons x xs ih =>
    intro b hab hba
    cases b with
    | nil => simp [charListLeB] at hab
    | cons y ys =>
      by_cases hxy : x < y
      · simp [charListLeB, hxy, asymm hxy] at hba
      · by_cases hyx : y < x
        · simp [charListLeB, hxy, hyx] at hab
        · have h : x = y := le_antisymm (not_lt.mp hyx) (not_lt.mp hxy)
          subst h
          simp only [charListLeB, lt_irrefl, if_neg (lt_irrefl x), if_false] at hab hba
          rw [ih hab hba]

instance : IsTotal LangLink linkLE :=
  ⟨fun a b => charListLeB_total a.lang.data b.lang.data⟩

instance : IsTrans LangLink linkLE :=
  ⟨fun _ _ _ h1 h2 => charListLeB_trans h1 h2⟩

/-- Strict version of `linkLE`: smaller-or-equal language code together
with distinct language codes. -/
def linkLT (x y : LangLink) : Prop :=
  linkLE x y ∧ x.lang ≠ y.lang

instance : IsAntisymm LangLink linkLT :=
  ⟨fun a b h h' =>
    absurd (String.ext (charListLeB_antisymm h.1 h'.1)) h.2⟩

/-- Two permutations of the same language links with pairwise distinct
language codes sort identically. -/
lemma sortLinks_eq_of_perm {l l' : List LangLink} (hp : l.Perm l')
    (hd : l.Pairwise (fun a b => a.lang ≠ b.lang)) :
    sortLinks l = sortLinks l' := by
  have hsymm : ∀ {x y : LangLink}, x.lang ≠ y.lang → y.lang ≠ x.lang :=
    fun h => h.symm
  have hd' : l'.Pairwise (fun a b => a.lang ≠ b.lang) :=
    (List.Perm.pairwise_iff hsymm hp).mp hd
  have hperm1 : sortLinks l |>.Perm l := List.perm_insertionSort linkLE l
  have hperm2 : sortLinks l' |>.Perm l' := List.perm_insertionSort linkLE l'
  have hne1 : (sortLinks l).Pairwise (fun a b => a.lang ≠ b.lang) :=
    (List.Perm.pairwise_iff hsymm hperm1).mpr hd
  have hne2 : (sortLinks l').Pairwise (fun a b => a.lang ≠ b.lang) :=
    (List.Perm.pairwise_iff hsymm hperm2).mpr hd'
  have hlt1 : (sortLinks l).Sorted linkLT :=
    List.Pairwise.and (List.sorted_insertionSort linkLE l) hne1
  have hlt2 : (sortLinks l').Sorted linkLT :=
    List.Pairwise.and (List.sorted_insertionSort linkLE l') hne2
  exact List.eq_of_perm_of_sorted (hperm1.trans (hp.trans hperm2.symm)) hlt1 hlt2

/-! ### Replacement facts for the search_content highlight rewriting -/

lemma pyReplace_nil (pat rep : List Char) : pyReplace [] pat rep = [] := by
  simp [pyReplace]

lemma pyReplace_cons_not_pre {pat : List Char} {c : Char} {rest : List Char}
    (hpre : pat.isPrefixOf (c :: rest) = false) (rep : List Char) :
    pyReplace (c :: rest) pat rep = c :: pyReplace rest pat rep := by
  rw [pyReplace]
  simp [hpre]

lemma pyReplace_cons_head_ne {pat : List Char} (hp : pat.head? = some '<')
    {c : Char} (hc : c ≠ '<') (rest rep : List Char) :
    pyReplace (c :: rest) pat rep = c :: pyReplace rest pat rep := by
  apply pyReplace_cons_not_pre _ rep
  cases pat with
  | nil => simp at hp
  | cons p pt =>
    have hpe : p = '<' := by simpa using hp
    subst hpe
    have hbeq : ('<' == c) = false := beq_eq_false_iff_ne.mpr (fun h => hc h.symm)
    simp [List.isPrefixOf, hbeq]

lemma pyReplace_no_occ {pat rep : List Char} (hp : pat.head? = some '<') :
    ∀ {s : List Char}, '<' ∉ s → pyReplace s pat rep = s := by
  intro s
  induction s with
  | nil => intro _; exact pyReplace_nil pat rep
  | cons c rest ih =>
    intro hs
    have hc : c ≠ '<' := fun h => hs (h ▸ List.mem_cons_self c rest)
    rw [pyReplace_cons_head_ne hp hc rest rep, ih (fun h => hs (List.mem_cons_of_mem c h))]

lemma pyReplace_append_no_occ {pat rep : List Char} (hp : pat.head? = some '<')
    {a : List Char} (ha : '<' ∉ a) (t : List Char) :
    pyReplace (a ++ t) pat rep = a ++ pyReplace t pat rep := by
  induction a with
  | nil => simp
  | cons c a' ih =>
    have hc : c ≠ '<' := fun h => ha (h ▸ List.mem_cons_self c a')
    have ha' : '<' ∉ a' := fun h => ha (List.mem_cons_of_mem c h)
    simp only [List.cons_append]
    rw [pyReplace_cons_head_ne hp hc (a' ++ t) rep, ih ha']

lemma pyReplace_head_match {pat : List Char} (hne : pat ≠ []) (t rep : List Char) :
    pyReplace (pat ++ t) pat rep = rep ++ pyReplace t pat rep := by
  match pat, hne with
  | p :: pt, _ =>
    rw [show (p :: pt) ++ t = p :: (pt ++ t) from rfl, pyReplace]
    have hpre : (p :: pt).isPrefixOf (p :: (pt ++ t)) = true := by
      rw [List.isPrefixOf_iff_prefix]
      exact List.prefix_append (p :: pt) t
    rw [dif_pos ⟨List.cons_ne_nil p pt, hpre⟩]
    congr 1
    rw [show p :: (pt ++ t) = (p :: pt) ++ t from rfl, List.drop_left]

lemma isPrefixOf_cons2_false {a1 a2 : Char} {as : List Char} {b1 b2 : Char} {bs : List Char}
    (h : (a2 == b2) = false) : (a1 :: a2 :: as).isPrefixOf (b1 :: b2 :: bs) = false := by
  simp [List.isPrefixOf, h]

lemma charNotMemAppend {x : Char} {a b : List Char} (ha : x ∉ a) (hb : x ∉ b) : x ∉ a ++ b := by
  intro h
  rcases List.mem_append.mp h with h | h
  exacts [ha h, hb h]

lemma spanOpen_head : spanOpen.data.head? = some '<' := rfl

lemma spanClose_head : spanClose.data.head? = some '<' := rfl

lemma spanOpen_ne : spanOpen.data ≠ [] := by decide

lemma spanClose_ne : spanClose.data ≠ [] := by decide

/-- The open tag never matches inside an occurrence of the close tag:
replacing the open tag leaves `</span>` followed by tag-free text
untouched. -/
lemma pyReplace_close_no_open {c : List Char} (hc : '<' ∉ c) (rep : List Char) :
    pyReplace (spanClose.data ++ c) spanOpen.data rep = spanClose.data ++ c := by
  have h1 : spanClose.data ++ c = '<' :: (('/' :: 's' :: 'p' :: 'a' :: 'n' :: '>' :: []) ++ c) := rfl
  have h2 : '<' ∉ ('/' :: 's' :: 'p' :: 'a' :: 'n' :: '>' :: ([] : List Char)) ++ c :=
    charNotMemAppend (by decide) hc
  have hpre : spanOpen.data.isPrefixOf
      ('<' :: (('/' :: 's' :: 'p' :: 'a' :: 'n' :: '>' :: []) ++ c)) = false :=
    isPrefixOf_cons2_false rfl
  rw [h1, pyReplace_cons_not_pre hpre rep, pyReplace_no_occ spanOpen_head h2]

lemma transform_parts_both (a b c : List Char) (ha : '<' ∉ a) (hb : '<' ∉ b) (hc : '<' ∉ c) :
    pyReplace (pyReplace (a ++ (spanOpen.data ++ (b ++ (spanClose.data ++ c))))
        spanOpen.data "**".data) spanClose.data "**".data =
      a ++ ("**".data ++ (b ++ ("**".data ++ c))) := by
  have hB : '<' ∉ "**".data := by decide
  rw [pyReplace_append_no_occ spanOpen_head ha, pyReplace_head_match spanOpen_ne,
    pyReplace_append_no_occ spanOpen_head hb, pyReplace_close_no_open hc,
    pyReplace_append_no_occ spanClose_head ha, pyReplace_append_no_occ spanClose_head hB,
    pyReplace_append_no_occ spanClose_head hb, pyReplace_head_match spanClose_ne,
    pyReplace_no_occ spanClose_head hc]

lemma transform_parts_close_only (a c : List Char) (ha : '<' ∉ a) (hc : '<' ∉ c) :
    pyReplace (pyReplace (a ++ (spanClose.data ++ c)) spanOpen.data "**".data)
        spanClose.data "**".data =
      a ++ ("**".data ++ c) := by
  rw [pyReplace_append_no_occ spanOpen_head ha, pyReplace_close_no_open hc,
    pyReplace_append_no_occ spanClose_head ha, pyReplace_head_match spanClose_ne,
    pyReplace_no_occ spanClose_head hc]

lemma transform_parts_open_only (a b : List Char) (ha : '<' ∉ a) (hb : '<' ∉ b) :
    pyReplace (pyReplace (a ++ (spanOpen.data ++ b)) spanOpen.data "**".data)
        spanClose.data "**".data =
      a ++ ("**".data ++ b) := by
  have hB : '<' ∉ "**".data := by decide
  rw [pyReplace_append_no_occ spanOpen_head ha, pyReplace_head_match spanOpen_ne,
    pyReplace_no_occ spanOpen_head hb,
    pyReplace_append_no_occ spanClose_head ha, pyReplace_append_no_occ spanClose_head hB,
    pyReplace_no_occ spanClose_head hb]

/-! ### Claim theorems -/

/-- C1: for every tool name (known or not) and every argument mapping
(including an absent one, treated as empty), one dispatcher invocation
returns exactly one text content block — no exception escapes the
dispatch boundary — and an unknown tool name yields the "Unknown tool"
error text block. -/
theorem dispatcher_one_text_block_and_unknown_tool (name : String)
    (arguments : Option Args) (today : Today) (u : Upstream) :
    (∃ s, (handle_call_tool name arguments today u).content = [.text s]) ∧
    (name ∉ toolNames →
      (handle_call_tool name arguments today u).content =
        [.text ("Error: Unknown tool: " ++ name)]) := by
  constructor
  · cases h : normalizeResult (coreDispatch name (arguments.getD {}) today u).1 with
    | text s => exact ⟨s, by simp [handle_call_tool, h]⟩
  · intro hn
    simp only [toolNames, List.mem_cons, List.not_mem_nil, or_false, not_or] at hn
    obtain ⟨h1, h2, h3, h4, h5, h6⟩ := hn
    have hlit : "Error: " ++ "Unknown tool: " = "Error: Unknown tool: " := rfl
    simp [handle_call_tool, coreDispatch, normalizeResult, h1, h2, h3, h4, h5, h6,
      ← String.append_assoc, hlit]

/-- C1, witness: a concrete unknown-tool call with an absent argument
mapping produces exactly the one "Unknown tool" text block. -/
theorem dispatcher_one_text_block_and_unknown_tool_witness :
    (∃ s, (handle_call_tool "bogus" none sampleToday sampleUpstream).content = [.text s]) ∧
    (handle_call_tool "bogus" none sampleToday sampleUpstream).content =
      [.text "Error: Unknown tool: bogus"] :=
  ⟨(dispatcher_one_text_block_and_unknown_tool "bogus" none sampleToday sampleUpstream).1,
    (dispatcher_one_text_block_and_unknown_tool "bogus" none sampleToday sampleUpstream).2
      (by decide)⟩

/-- C2: contrary to the claim (and to the bounds advertised in the tool
schema), the dispatcher performs no limit validation: `search_content`
with limit 0 and `search_titles` with limit 101 each issue the upstream
request, carrying the out-of-range value verbatim in the URL. -/
theorem search_limit_out_of_range_issues_request :
    (handle_call_tool "search_content" (some { query := some "x", limit := some 0 })
        sampleToday sampleUpstream).requests =
      [⟨"https://api.wikimedia.org/core/v1/wikipedia/en/search/page?q=x&limit=0", []⟩] ∧
    (handle_call_tool "search_titles" (some { query := some "x", limit := some 101 })
        sampleToday sampleUpstream).requests =
      [⟨"https://api.wikimedia.org/core/v1/wikipedia/en/search/title?q=x&limit=101", []⟩] := by
  refine ⟨by decide, by decide⟩

/-- C3: for any parsed date whose month lies in 1..12 but whose day
exceeds the fixed per-month table (February hard-coded to 29), the call
returns the "Invalid day" text naming the table entry, issuing no
upstream request — for any clock value and upstream world. -/
theorem onthisday_day_exceeds_fixed_table (args : Args) (today : Today) (u : Upstream)
    (s a b : String) (m d : Int)
    (hdate : args.date = some s)
    (htype : args.eventType.getD "all" ∈ validEventTypes)
    (hproj : args.project.getD "wikipedia" = "wikipedia")
    (hlang : args.language.getD "en" ∈ supportedLanguages)
    (hsplit : pySplitUnpack2 s = .ok (a, b))
    (hm : pyInt (pyZfill a 2) = .ok m)
    (hd : pyInt (pyZfill b 2) = .ok d)
    (hm1 : 1 ≤ m) (hm2 : m ≤ 12)
    (hday : daysInMonth m < d) :
    handle_call_tool "get_on_this_day" (some args) today u =
      ⟨[.text ("Invalid day: " ++ pyZfill b 2 ++ ". Month " ++ pyZfill a 2 ++ " has " ++
        toString (daysInMonth m) ++ " days")], []⟩ := by
  have hs : s ≠ "" := by
    intro h
    subst h
    rw [show pySplitUnpack2 "" = .error () from by decide] at hsplit
    simp at hsplit
  have hnd : ¬ (1 ≤ d ∧ d ≤ daysInMonth m) := fun hand => absurd hand.2 (not_le.mpr hday)
  simp [handle_call_tool, coreDispatch, run_get_on_this_day, normalizeResult, hdate, htype,
    hproj, hlang, hs, hsplit, hm, hd, hm1, hm2, hnd]

/-- C3, witness: date "2/30" yields exactly the error citing
"Month 02 has 29 days", independent of the (arbitrary) clock. -/
theorem onthisday_day_exceeds_fixed_table_witness :
    handle_call_tool "get_on_this_day" (some { date := some "2/30" }) sampleToday
        sampleUpstream =
      ⟨[.text "Invalid day: 30. Month 02 has 29 days"], []⟩ :=
  onthisday_day_exceeds_fixed_table { date := some "2/30" } sampleToday sampleUpstream
    "2/30" "2" "30" 2 30 rfl (by decide) rfl (by decide) (by decide) (by decide) (by decide)
    (by decide) (by decide) (by decide)

/-- C4: the month-range check runs before the day-range check: whenever
the parsed month is outside 1..12 the call returns the "Invalid month"
text, whatever the day value, with no upstream request. -/
theorem onthisday_month_check_before_day_check (args : Args) (today : Today) (u : Upstream)
    (s a b : String) (m d : Int)
    (hdate : args.date = some s)
    (htype : args.eventType.getD "all" ∈ validEventTypes)
    (hproj : args.project.getD "wikipedia" = "wikipedia")
    (hlang : args.language.getD "en" ∈ supportedLanguages)
    (hsplit : pySplitUnpack2 s = .ok (a, b))
    (hm : pyInt (pyZfill a 2) = .ok m)
    (hd : pyInt (pyZfill b 2) = .ok d)
    (hmbad : ¬ (1 ≤ m ∧ m ≤ 12)) :
    handle_call_tool "get_on_this_day" (some args) today u =
      ⟨[.text ("Invalid month: " ++ pyZfill a 2 ++ ". Must be between 01 and 12")], []⟩ := by
  have hs : s ≠ "" := by
    intro h
    subst h
    rw [show pySplitUnpack2 "" = .error () from by decide] at hsplit
    simp at hsplit
  simp [handle_call_tool, coreDispatch, run_get_on_this_day, normalizeResult, hdate, htype,
    hproj, hlang, hs, hsplit, hm, hd, hmbad]

/-- C4, witness: date "13/40", with both month and day out of range,
yields the invalid-month error, not the invalid-day error. -/
theorem onthisday_month_check_before_day_check_witness :
    handle_call_tool "get_on_this_day" (some { date := some "13/40" }) sampleToday
        sampleUpstream =
      ⟨[.text "Invalid month: 13. Must be between 01 and 12"], []⟩ :=
  onthisday_month_check_before_day_check { date := some "13/40" } sampleToday sampleUpstream
    "13/40" "13" "40" 13 40 rfl (by decide) rfl (by decide) (by decide) (by decide) (by decide)
    (by decide)

/-- C5, counterexample: with `project="wiktionary"` and `language="xx"`
the language lies outside the supported set, yet the returned block is
the project error, not a text listing the supported languages — so the
claim's unconditional language clause is false. -/
theorem featured_language_error_shadowed_by_project_error :
    handle_call_tool "get_featured"
        (some { project := some "wiktionary", language := some "xx" }) sampleToday
        sampleUpstream =
      ⟨[.text "Featured content is only available for Wikipedia, not wiktionary"], []⟩ ∧
    "xx" ∉ supportedLanguages ∧
    (handle_call_tool "get_featured"
        (some { project := some "wiktionary", language := some "xx" }) sampleToday
        sampleUpstream).content ≠
      [.text ("Featured content is not available for language 'xx'. " ++
        "Supported languages are: de, en, es, fr, ja, ru, zh")] := by
  refine ⟨by decide, by decide, by decide⟩

/-- C5, amended: for `get_featured` a non-"wikipedia" project yields the
"only available for Wikipedia" error; an unsupported language yields the
supported-set listing provided the project is "wikipedia"; the same
holds for `get_on_this_day` provided additionally the event type is
valid (its type check runs first). No upstream request is issued in any
of these cases. -/
theorem featured_onthisday_project_language_gating (args : Args) (today : Today)
    (u : Upstream) :
    (args.project.getD "wikipedia" ≠ "wikipedia" →
      handle_call_tool "get_featured" (some args) today u =
        ⟨[.text ("Featured content is only available for Wikipedia, not " ++
          args.project.getD "wikipedia")], []⟩) ∧
    (args.project.getD "wikipedia" = "wikipedia" →
      args.language.getD "en" ∉ supportedLanguages →
      handle_call_tool "get_featured" (some args) today u =
        ⟨[.text ("Featured content is not available for language '" ++
          args.language.getD "en" ++ "'. Supported languages are: " ++
          "de, en, es, fr, ja, ru, zh")], []⟩) ∧
    (args.eventType.getD "all" ∈ validEventTypes →
      args.project.getD "wikipedia" ≠ "wikipedia" →
      handle_call_tool "get_on_this_day" (some args) today u =
        ⟨[.text ("On this day events are only available for Wikipedia, not " ++
          args.project.getD "wikipedia")], []⟩) ∧
    (args.eventType.getD "all" ∈ validEventTypes →
      args.project.getD "wikipedia" = "wikipedia" →
      args.language.getD "en" ∉ supportedLanguages →
      handle_call_tool "get_on_this_day" (some args) today u =
        ⟨[.text ("On this day events are not available for language '" ++
          args.language.getD "en" ++ "'. Supported languages are: " ++
          "de, en, es, fr, ja, ru, zh")], []⟩) := by
  have hsl : String.intercalate ", " (sortedStrings supportedLanguages) =
      "de, en, es, fr, ja, ru, zh" := by decide
  refine ⟨?_, ?_, ?_, ?_⟩
  · intro hproj
    simp [handle_call_tool, coreDispatch, run_get_featured, normalizeResult, hproj]
  · intro hproj hlang
    simp [handle_call_tool, coreDispatch, run_get_featured, normalizeResult, hproj, hlang, hsl]
  · intro htype hproj
    simp [handle_call_tool, coreDispatch, run_get_on_this_day, normalizeResult, htype, hproj]
  · intro htype hproj hlang
    simp [handle_call_tool, coreDispatch, run_get_on_this_day, normalizeResult, htype, hproj,
      hlang, hsl]

/-- C5, witness: the four gated error messages at concrete inputs. -/
theorem featured_onthisday_project_language_gating_witness :
    (handle_call_tool "get_featured" (some { project := some "wiktionary" }) sampleToday
        sampleUpstream =
      ⟨[.text "Featured content is only available for Wikipedia, not wiktionary"], []⟩) ∧
    (handle_call_tool "get_featured" (some { language := some "xx" }) sampleToday
        sampleUpstream =
      ⟨[.text ("Featured content is not available for language 'xx'. " ++
        "Supported languages are: de, en, es, fr, ja, ru, zh")], []⟩) ∧
    (handle_call_tool "get_on_this_day" (some { project := some "wiktionary" }) sampleToday
        sampleUpstream =
      ⟨[.text "On this day events are only available for Wikipedia, not wiktionary"], []⟩) ∧
    (handle_call_tool "get_on_this_day" (some { language := some "xx" }) sampleToday
        sampleUpstream =
      ⟨[.text ("On this day events are not available for language 'xx'. " ++
        "Supported languages are: de, en, es, fr, ja, ru, zh")], []⟩) :=
  ⟨(featured_onthisday_project_language_gating { project := some "wiktionary" } sampleToday
      sampleUpstream).1 (by decide),
    (featured_onthisday_project_language_gating { language := some "xx" } sampleToday
      sampleUpstream).2.1 rfl (by decide),
    (featured_onthisday_project_language_gating { project := some "wiktionary" } sampleToday
      sampleUpstream).2.2.1 (by decide) (by decide),
    (featured_onthisday_project_language_gating { language := some "xx" } sampleToday
      sampleUpstream).2.2.2 (by decide) rfl (by decide)⟩

/-- C6: the `search_content` transformer replaces occurrences of the open
tag and of `</span>` independently by `**` (plain substring replacement):
around tag-free text it rewrites a matched pair, a lone close tag and a
lone open tag alike. -/
theorem search_content_highlight_rewrite (a b c : String)
    (ha : '<' ∉ a.data) (hb : '<' ∉ b.data) (hc : '<' ∉ c.data) :
    transformExcerpt (a ++ spanOpen ++ b ++ spanClose ++ c) = a ++ "**" ++ b ++ "**" ++ c ∧
    transformExcerpt (a ++ spanClose ++ c) = a ++ "**" ++ c ∧
    transformExcerpt (a ++ spanOpen ++ b) = a ++ "**" ++ b := by
  refine ⟨?_, ?_, ?_⟩
  · apply String.ext
    show pyReplace (pyReplace (a ++ spanOpen ++ b ++ spanClose ++ c).data
      spanOpen.data "**".data) spanClose.data "**".data = (a ++ "**" ++ b ++ "**" ++ c).data
    simp only [String.data_append, List.append_assoc]
    exact transform_parts_both a.data b.data c.data ha hb hc
  · apply String.ext
    show pyReplace (pyReplace (a ++ spanClose ++ c).data
      spanOpen.data "**".data) spanClose.data "**".data = (a ++ "**" ++ c).data
    simp only [String.data_append, List.append_assoc]
    exact transform_parts_close_only a.data c.data ha hc
  · apply String.ext
    show pyReplace (pyReplace (a ++ spanOpen ++ b).data
      spanOpen.data "**".data) spanClose.data "**".data = (a ++ "**" ++ b).data
    simp only [String.data_append, List.append_assoc]
    exact transform_parts_open_only a.data b.data ha hb

/-- C6, witness: the spec's concrete excerpt renders as "a **cat** sat". -/
theorem search_content_highlight_rewrite_witness :
    transformExcerpt "a <span class=\"searchmatch\">cat</span> sat" = "a **cat** sat" :=
  (search_content_highlight_rewrite "a " "cat" " sat" (by decide) (by decide) (by decide)).1

/-- C7: when the upstream `get_page` response carries a non-empty
`redirects` array, the rendered heading title is the `to` field of its
last element; with no `redirects` key it is the page object's own title. -/
theorem get_page_redirect_resolves_last_target (args : Args) (today : Today) (u : Upstream)
    (data : PageQueryBody) (qo : PageQueryObj) (page : PageObj) (rest : List PageObj)
    (rev : Revision) (revs : List Revision)
    (hu : u.pageQuery = .ok data) (hq : data.query = some qo)
    (hp : qo.pages = some (page :: rest)) (hm : page.missing = false)
    (hr : page.revisions = some (rev :: revs)) :
    (∀ (rl : List RedirectEntry) (r : RedirectEntry), qo.redirects = some rl →
      rl.getLast? = some r →
      (handle_call_tool "get_page" (some args) today u).content =
        [.text ("# " ++ r.toTitle ++ "\n\n" ++ rev.content ++ "\n\nLast modified: " ++
          rev.timestamp)]) ∧
    (qo.redirects = none →
      (handle_call_tool "get_page" (some args) today u).content =
        [.text ("# " ++ page.title ++ "\n\n" ++ rev.content ++ "\n\nLast modified: " ++
          rev.timestamp)]) := by
  constructor
  · intro rl r hrl hlast
    simp [handle_call_tool, coreDispatch, run_get_page, normalizeResult, hu, hq, hp, hm, hr,
      hrl, hlast]
  · intro hrl
    simp [handle_call_tool, coreDispatch, run_get_page, normalizeResult, hu, hq, hp, hm, hr,
      hrl]

/-- C7, witness: a redirected page whose page object is titled "T2" but
whose `redirects` array ends in target "Target" renders "# Target". -/
theorem get_page_redirect_resolves_last_target_witness :
    (handle_call_tool "get_page" (some { title := some "T" }) sampleToday
        { pageQuery := .ok ⟨some ⟨some [⟨"T2", false, some [⟨"body", "2024-01-01"⟩]⟩],
            some [⟨"Target"⟩]⟩⟩ }).content =
      [.text "# Target\n\nbody\n\nLast modified: 2024-01-01"] :=
  (get_page_redirect_resolves_last_target { title := some "T" } sampleToday
      { pageQuery := .ok ⟨some ⟨some [⟨"T2", false, some [⟨"body", "2024-01-01"⟩]⟩],
          some [⟨"Target"⟩]⟩⟩ }
      ⟨some ⟨some [⟨"T2", false, some [⟨"body", "2024-01-01"⟩]⟩], some [⟨"Target"⟩]⟩⟩
      ⟨some [⟨"T2", false, some [⟨"body", "2024-01-01"⟩]⟩], some [⟨"Target"⟩]⟩
      ⟨"T2", false, some [⟨"body", "2024-01-01"⟩]⟩ [] ⟨"body", "2024-01-01"⟩ []
      rfl rfl rfl rfl rfl).1 [⟨"Target"⟩] ⟨"Target"⟩ rfl rfl

/-- C8, counterexample: two permutations of the same links that share a
language code render differently (the sort is stable, keyed on the code
only), so permutation invariance fails without distinctness. -/
theorem get_languages_duplicate_codes_order_dependent :
    ([⟨"fr", "A"⟩, ⟨"fr", "B"⟩] : List LangLink).Perm [⟨"fr", "B"⟩, ⟨"fr", "A"⟩] ∧
    (handle_call_tool "get_languages" (some { title := some "T" }) sampleToday
        (langUpstream [⟨"fr", "A"⟩, ⟨"fr", "B"⟩])).content ≠
      (handle_call_tool "get_languages" (some { title := some "T" }) sampleToday
        (langUpstream [⟨"fr", "B"⟩, ⟨"fr", "A"⟩])).content := by
  refine ⟨by decide, by decide⟩

/-- C8, amended: for non-empty language-link lists whose codes are
pairwise distinct, any permutation renders identically, as the header
`Found n language versions:` (n the number of links) over the lines of
the code-sorted links. -/
theorem get_languages_sorted_output_distinct_codes (args : Args) (today : Today)
    (u u' : Upstream) (data data' : LangQueryBody) (qo qo' : LangQueryObj)
    (page page' : LangPage) (rest rest' : List LangPage) (links links' : List LangLink)
    (hu : u.langQuery = .ok data) (hq : data.query = some qo)
    (hp : qo.pages = some (page :: rest)) (hm : page.missing = false)
    (hl : page.langlinks = some links)
    (hu' : u'.langQuery = .ok data') (hq' : data'.query = some qo')
    (hp' : qo'.pages = some (page' :: rest')) (hm' : page'.missing = false)
    (hl' : page'.langlinks = some links')
    (hperm : links.Perm links')
    (hd : links.Pairwise (fun a b => a.lang ≠ b.lang))
    (hne : links ≠ []) :
    (handle_call_tool "get_languages" (some args) today u).content =
      (handle_call_tool "get_languages" (some args) today u').content ∧
    (handle_call_tool "get_languages" (some args) today u).content =
      [.text ("Found " ++ toString links.length ++ " language versions:\n\n" ++
        String.intercalate "\n" ((sortLinks links).map fmtLangLink))] := by
  have hsort : sortLinks links = sortLinks links' := sortLinks_eq_of_perm hperm hd
  have hlen : (sortLinks links).length = links.length :=
    (List.perm_insertionSort linkLE links).length_eq
  have hlen2 : ((sortLinks links).map fmtLangLink).length = links.length := by
    rw [List.length_map, hlen]
  have hsne : sortLinks links ≠ [] := by
    intro h
    have : links.length = 0 := by rw [← hlen, h]; rfl
    exact hne (List.length_eq_zero.mp this)
  have hresne : (sortLinks links).map fmtLangLink ≠ [] := by
    intro h
    exact hsne (List.map_eq_nil.mp h)
  constructor
  · simp [handle_call_tool, coreDispatch, run_get_languages, normalizeResult, hu, hq, hp, hm,
      hl, hu', hq', hp', hm', hl', ← hsort, hresne]
  · simp [handle_call_tool, coreDispatch, run_get_languages, normalizeResult, hu, hq, hp, hm,
      hl, hresne, hlen2]

/-- C8, witness: links supplied as fr-then-de and as de-then-fr render
the same sorted output, listing `de` before `fr`. -/
theorem get_languages_sorted_output_distinct_codes_witness :
    (handle_call_tool "get_languages" (some { title := some "T" }) sampleToday
        (langUpstream [⟨"fr", "F"⟩, ⟨"de", "D"⟩])).content =
      (handle_call_tool "get_languages" (some { title := some "T" }) sampleToday
        (langUpstream [⟨"de", "D"⟩, ⟨"fr", "F"⟩])).content ∧
    (handle_call_tool "get_languages" (some { title := some "T" }) sampleToday
        (langUpstream [⟨"fr", "F"⟩, ⟨"de", "D"⟩])).content =
      [.text "Found 2 language versions:\n\n- [de] D\n- [fr] F"] := by
  have h := get_languages_sorted_output_distinct_codes { title := some "T" } sampleToday
    (langUpstream [⟨"fr", "F"⟩, ⟨"de", "D"⟩]) (langUpstream [⟨"de", "D"⟩, ⟨"fr", "F"⟩])
    ⟨some ⟨some [⟨false, some [⟨"fr", "F"⟩, ⟨"de", "D"⟩]⟩]⟩⟩
    ⟨some ⟨some [⟨false, some [⟨"de", "D"⟩, ⟨"fr", "F"⟩]⟩]⟩⟩
    ⟨some [⟨false, some [⟨"fr", "F"⟩, ⟨"de", "D"⟩]⟩]⟩
    ⟨some [⟨false, some [⟨"de", "D"⟩, ⟨"fr", "F"⟩]⟩]⟩
    ⟨false, some [⟨"fr", "F"⟩, ⟨"de", "D"⟩]⟩ ⟨false, some [⟨"de", "D"⟩, ⟨"fr", "F"⟩]⟩
    [] [] [⟨"fr", "F"⟩, ⟨"de", "D"⟩] [⟨"de", "D"⟩, ⟨"fr", "F"⟩]
    rfl rfl rfl rfl rfl rfl rfl rfl rfl rfl
    (by decide) (by decide) (by decide)
  exact ⟨h.1, h.2⟩

/-- C9: the dispatcher is deterministic — it is a pure function of the
tool name, the arguments and the upstream world; in particular, whenever
a non-empty explicit date is supplied where a "today" default would
apply, the output does not depend on the clock at all. -/
theorem dispatcher_deterministic_with_explicit_date (name : String)
    (arguments : Option Args) (t1 t2 : Today) (u : Upstream)
    (hdate : (name = "get_featured" ∨ name = "get_on_this_day") →
      ∃ d, (arguments.getD {}).date = some d ∧ d ≠ "") :
    handle_call_tool name arguments t1 u = handle_call_tool name arguments t2 u := by
  by_cases h1 : name = "search_content"
  · simp [handle_call_tool, coreDispatch, h1]
  by_cases h2 : name = "get_page"
  · simp [handle_call_tool, coreDispatch, h1, h2]
  by_cases h3 : name = "search_titles"
  · simp [handle_call_tool, coreDispatch, h1, h2, h3]
  by_cases h4 : name = "get_languages"
  · simp [handle_call_tool, coreDispatch, h1, h2, h3, h4]
  by_cases h5 : name = "get_featured"
  · obtain ⟨d, hd, hne⟩ := hdate (Or.inl h5)
    simp [handle_call_tool, coreDispatch, run_get_featured, h1, h2, h3, h4, h5, hd, hne]
  by_cases h6 : name = "get_on_this_day"
  · obtain ⟨d, hd, hne⟩ := hdate (Or.inr h6)
    simp [handle_call_tool, coreDispatch, run_get_on_this_day, h1, h2, h3, h4, h5, h6, hd, hne]
  · simp [handle_call_tool, coreDispatch, h1, h2, h3, h4, h5, h6]

/-- C9, witness: a `get_featured` call with an explicit date produces
identical results under two different clock values. -/
theorem dispatcher_deterministic_with_explicit_date_witness :
    handle_call_tool "get_featured" (some { date := some "2025/01/02" }) sampleToday
        sampleUpstream =
      handle_call_tool "get_featured" (some { date := some "2025/01/02" }) sampleToday2
        sampleUpstream :=
  dispatcher_deterministic_with_explicit_date "get_featured"
    (some { date := some "2025/01/02" }) sampleToday sampleToday2 sampleUpstream
    (fun _ => ⟨"2025/01/02", rfl, by decide⟩)

/-- C10, counterexample: date "ab/cd" is caught by the `get_on_this_day`
tool-level handler, so the text is "Error retrieving historical events:
..." — not the claimed outermost-boundary "Error: ..." form. -/
theorem onthisday_nonnumeric_date_not_generic_error_form :
    handle_call_tool "get_on_this_day" (some { date := some "ab/cd" }) sampleToday
        sampleUpstream =
      ⟨[.text ("Error retrieving historical events: " ++
        "invalid literal for int() with base 10: 'ab'")], []⟩ ∧
    (handle_call_tool "get_on_this_day" (some { date := some "ab/cd" }) sampleToday
        sampleUpstream).content ≠
      [.text "Error: invalid literal for int() with base 10: 'ab'"] := by
  refine ⟨by decide, by decide⟩

/-- C10, amended: a date splitting into exactly two parts whose first
part is not an int literal skips the "Invalid date format" path; the
conversion error is caught by the tool-level handler, producing exactly
one text block of the form "Error retrieving historical events: {msg}"
with no upstream request. -/
theorem onthisday_nonnumeric_date_tool_level_error (args : Args) (today : Today)
    (u : Upstream) (s a b : String) (e : PyErr)
    (hdate : args.date = some s)
    (htype : args.eventType.getD "all" ∈ validEventTypes)
    (hproj : args.project.getD "wikipedia" = "wikipedia")
    (hlang : args.language.getD "en" ∈ supportedLanguages)
    (hsplit : pySplitUnpack2 s = .ok (a, b))
    (hm : pyInt (pyZfill a 2) = .error e) :
    handle_call_tool "get_on_this_day" (some args) today u =
      ⟨[.text ("Error retrieving historical events: " ++ pyStrErr e)], []⟩ := by
  have hs : s ≠ "" := by
    intro h
    subst h
    rw [show pySplitUnpack2 "" = .error () from by decide] at hsplit
    simp at hsplit
  simp [handle_call_tool, coreDispatch, run_get_on_this_day, normalizeResult, hdate, htype,
    hproj, hlang, hs, hsplit, hm]

/-- C10, witness: date "ab/cd" produces the tool-level conversion-error
text and no upstream request. -/
theorem onthisday_nonnumeric_date_tool_level_error_witness :
    handle_call_tool "get_on_this_day" (some { date := some "ab/cd" }) sampleToday
        sampleUpstream =
      ⟨[.text ("Error retrieving historical events: " ++
        "invalid literal for int() with base 10: 'ab'")], []⟩ :=
  onthisday_nonnumeric_date_tool_level_error { date := some "ab/cd" } sampleToday
    sampleUpstream "ab/cd" "ab" "cd" (.valueError "invalid literal for int() with base 10: 'ab'")
    rfl (by decide) rfl (by decide) (by decide) (by decide)
